import Mathlib

/-!
Verification of the per-sensor motion-debounce monitor in `monitor.py`.

The embedding models the `HikSensor` event handler (`update_callback`), its
constructor-initialised debounce state (`_sensor_last_trigger`), and the
notification pipeline (`send_mail` plus the callback HTTP GET) as pure Lean
functions.  Python `datetime` values are modelled as integer microseconds
(`datetime` has microsecond resolution, so `timedelta.total_seconds() > 60`
holds exactly when the difference in microseconds exceeds `60 * 10^6`).
Observable side effects of one handler invocation are collected, in program
order, into a list of `Effect`s; a Python exception escaping the handler is
modelled by a `raised` flag on the result.
-/

namespace Monitor

/-- Test `timedelta.total_seconds() > s` for a timedelta of `d` microseconds:
true exactly when `d` exceeds `s` whole seconds. -/
def total_seconds_gt (d : Int) (s : Int) : Bool :=
  s * 1000000 < d

/-- The `email_info` dictionary handed to each `HikSensor`. -/
structure EmailInfo where
  send_from : String
  send_to : List String
  server : String
  user : String
  password : String
deriving DecidableEq

/-- Zero-padded two-digit rendering of a field value, as `strftime` produces
for `%H`, `%M` and `%S`. -/
def pad2 (n : Int) : String :=
  if n < 10 then "0" ++ toString n else toString n

/-- `strftime` restricted to an hour/minute/second pattern with separator
`sep` (the code uses `"%H:%M:%S"` and `"%H-%M-%S"`), on a timestamp in
microseconds. -/
def strftimeHMS (sep : String) (t : Int) : String :=
  let secs := t / 1000000
  pad2 (secs / 3600 % 24) ++ sep ++ pad2 (secs / 60 % 60) ++ sep ++ pad2 (secs % 60)

/-- The multipart email message composed by `HikSensor.send_mail`:
`From`/`To` headers, subject, plaintext body, and the single image
attachment (name and content bytes). -/
structure EmailMsg where
  msgFrom : String
  msgTo : String
  subject : String
  body : String
  attachmentName : String
  attachmentContent : List Nat
deriving DecidableEq

/-- Message composition in `HikSensor.send_mail` (lines 150-174): the trigger
time is read from `self._sensor_last_trigger` (just updated by the caller to
the event time), formatted `HH:MM:SS` for the body and `HH-MM-SS` for the
attachment name; `COMMASPACE.join(send_to)` joins recipients with a comma
and space; the attachment content is the freshly fetched snapshot bytes. -/
def send_mail_compose (name : String) (info : EmailInfo) (lastTrigger : Int)
    (image : List Nat) : EmailMsg :=
  let triggerTime := strftimeHMS ":" lastTrigger
  let fTriggerTime := strftimeHMS "-" lastTrigger
  { msgFrom := info.send_from
    msgTo := String.intercalate ", " info.send_to
    subject := "Motion detected at " ++ name
    body := "Motion detected at " ++ name ++ " at " ++ triggerTime ++ "."
    attachmentName := fTriggerTime ++ ".jpg"
    attachmentContent := image }

/-- The mutable per-sensor state: the `_sensor_last_trigger` attribute.
`none` models a Python-falsy value (what line 131's truthiness test would
reject); `some t` a `datetime` (always truthy). -/
structure MonitorState where
  sensorLastTrigger : Option Int
deriving DecidableEq

/-- `HikSensor.__init__` line 89:
`self._sensor_last_trigger = datetime.now() - timedelta(seconds=60)`,
where `constructionTime` is the value of `datetime.now()` at construction. -/
def initState (constructionTime : Int) : MonitorState :=
  { sensorLastTrigger := some (constructionTime - 60 * 1000000) }

/-- The environment of a single `update_callback` invocation: what the
external collaborators return during that invocation. -/
structure Env where
  /-- `self._sensor_state()`: the decoded active/inactive state. -/
  sensorState : Bool
  /-- `self._sensor_last_update()`: the event timestamp (`currTime`). -/
  lastUpdate : Int
  /-- `self._cam.callback_url`. -/
  callbackUrl : String
  /-- bytes `self._cam.get_picture()` returns if called during this
  invocation (the camera's current snapshot at fetch time). -/
  snapshot : List Nat
  /-- whether the SMTP delivery in `send_mail` raises. -/
  emailSendFails : Bool
  /-- whether `requests.get(self._cam.callback_url)` raises. -/
  httpGetFails : Bool
deriving DecidableEq

/-- Python truthiness of a string: nonempty. -/
def strTruthy (s : String) : Bool :=
  !s.isEmpty

/-- One observable side effect of a handler invocation, in program order. -/
inductive Effect where
  /-- assignment `self._sensor_last_trigger = currTime` (line 135 or 143). -/
  | updateTrigger (t : Int)
  /-- `image = self._cam.get_picture()` inside `send_mail` (line 166). -/
  | fetchSnapshot
  /-- the outbound SMTP delivery attempt of `msg` (lines 176-179). -/
  | sendEmail (msg : EmailMsg)
  /-- the outbound `requests.get(url)` attempt (line 146). -/
  | httpGet (url : String)
deriving DecidableEq

/-- Result of one `update_callback` invocation: final state, ordered list of
observable effects, and whether an exception escaped the handler. -/
structure StepResult where
  state : MonitorState
  effects : List Effect
  raised : Bool
deriving DecidableEq

/-- `HikSensor.update_callback` (lines 125-147).  Guard: the body runs only
when `self._sensor_state() and self._cam.callback_url` is truthy.  If the
stored last trigger is truthy and the elapsed time strictly exceeds 60
seconds, the trigger is updated and `send_mail` runs (compose, fetch
snapshot, SMTP attempt); if the SMTP attempt raises, the exception escapes
before the `requests.get` at line 146, which otherwise runs on every path
inside the guard (fire, suppress, or blank-trigger).  A `requests.get`
failure is not caught and escapes the handler. -/
def update_callback (name : String) (info : EmailInfo) (st : MonitorState)
    (env : Env) : StepResult :=
  if env.sensorState && strTruthy env.callbackUrl then
    let currTime := env.lastUpdate
    match st.sensorLastTrigger with
    | some lastTrigger =>
      if total_seconds_gt (currTime - lastTrigger) 60 then
        let st' : MonitorState := { sensorLastTrigger := some currTime }
        let msg := send_mail_compose name info currTime env.snapshot
        if env.emailSendFails then
          { state := st'
            effects := [.updateTrigger currTime, .fetchSnapshot, .sendEmail msg]
            raised := true }
        else
          { state := st'
            effects := [.updateTrigger currTime, .fetchSnapshot, .sendEmail msg,
                        .httpGet env.callbackUrl]
            raised := env.httpGetFails }
      else
        { state := st
          effects := [.httpGet env.callbackUrl]
          raised := env.httpGetFails }
    | none =>
      { state := { sensorLastTrigger := some currTime }
        effects := [.updateTrigger currTime, .httpGet env.callbackUrl]
        raised := env.httpGetFails }
  else
    { state := st, effects := [], raised := false }

/-- Number of outbound email delivery attempts recorded in an effect list. -/
def emailAttempts (effs : List Effect) : Nat :=
  (effs.filter fun e => match e with | .sendEmail _ => true | _ => false).length

/-- Number of outbound HTTP GET attempts recorded in an effect list. -/
def httpGetAttempts (effs : List Effect) : Nat :=
  (effs.filter fun e => match e with | .httpGet _ => true | _ => false).length

/-- Fold of `update_callback` over a sequence of delivered events. -/
def runEvents (name : String) (info : EmailInfo) (st : MonitorState) :
    List Env → MonitorState
  | [] => st
  | env :: rest => runEvents name info (update_callback name info st env).state rest

/-- The guard combination under which line 143 (the arm-without-firing
assignment behind `else: # Last trigger time was blank`) executes: active
event, truthy callback URL, falsy stored trigger. -/
def armBranchTaken (st : MonitorState) (env : Env) : Bool :=
  env.sensorState && strTruthy env.callbackUrl && st.sensorLastTrigger.isNone

/-- Concrete email configuration used by witnesses. -/
def info0 : EmailInfo :=
  { send_from := "alerts@example.org"
    send_to := ["home@example.org"]
    server := "smtp.example.org"
    user := "alerts"
    password := "pw" }

/-- Concrete state with the debounce record set to time 0. -/
def st0 : MonitorState := { sensorLastTrigger := some 0 }

/-- Concrete active event 61 seconds after trigger time 0 (fires). -/
def env0 : Env :=
  { sensorState := true
    lastUpdate := 61000000
    callbackUrl := "localhost"
    snapshot := [7, 7]
    emailSendFails := false
    httpGetFails := false }

/-- Concrete inactive event. -/
def envOff : Env := { env0 with sensorState := false }

/-- Concrete active event 30 seconds after trigger time 0 (suppressed). -/
def envSup : Env := { env0 with lastUpdate := 30000000 }

/-- Concrete suppressed event whose callback GET raises. -/
def envSupFail : Env := { envSup with httpGetFails := true }

/-- Concrete fired event whose SMTP delivery raises. -/
def envMailFail : Env := { env0 with emailSendFails := true }

/-- Concrete first active event one microsecond after a construction at
time 60000000 (60 s past the epoch). -/
def envFirst : Env := { env0 with lastUpdate := 60000001 }

example : emailAttempts (update_callback "cam motion 1" info0 st0 env0).effects = 1 := rfl

example : httpGetAttempts (update_callback "cam motion 1" info0 st0 env0).effects = 1 := rfl

/-- Normal form of a handler invocation on an active event with a truthy
callback URL and a set (truthy) debounce record. -/
theorem update_callback_some (name : String) (info : EmailInfo) (st : MonitorState)
    (env : Env) (lt : Int) (h : st.sensorLastTrigger = some lt)
    (hactive : env.sensorState = true) (hurl : strTruthy env.callbackUrl = true) :
    update_callback name info st env =
      if total_seconds_gt (env.lastUpdate - lt) 60 then
        if env.emailSendFails then
          { state := { sensorLastTrigger := some env.lastUpdate }
            effects := [.updateTrigger env.lastUpdate, .fetchSnapshot,
                        .sendEmail (send_mail_compose name info env.lastUpdate env.snapshot)]
            raised := true }
        else
          { state := { sensorLastTrigger := some env.lastUpdate }
            effects := [.updateTrigger env.lastUpdate, .fetchSnapshot,
                        .sendEmail (send_mail_compose name info env.lastUpdate env.snapshot),
                        .httpGet env.callbackUrl]
            raised := env.httpGetFails }
      else
        { state := st, effects := [.httpGet env.callbackUrl],
          raised := env.httpGetFails } := by
  simp only [update_callback, hactive, hurl, h, Bool.and_self, if_true]

/-- C1: on an active event whose debounce record is set (with the callback
URL truthy, as it is for every camera the program constructs), the handler
attempts a notification iff the elapsed time since the stored trigger
strictly exceeds 60 seconds; when it fires it first assigns
`last_trigger_time = last_observed` and only then fetches the snapshot and
attempts the email; elapsed of exactly 60 seconds does not fire; no other
branch emits an email. -/
theorem fires_iff_elapsed_gt_60 (name : String) (info : EmailInfo)
    (st : MonitorState) (env : Env) (lt : Int)
    (h : st.sensorLastTrigger = some lt)
    (hactive : env.sensorState = true) (hurl : strTruthy env.callbackUrl = true) :
    (0 < emailAttempts (update_callback name info st env).effects ↔
        total_seconds_gt (env.lastUpdate - lt) 60 = true)
    ∧ (total_seconds_gt (env.lastUpdate - lt) 60 = true →
        (update_callback name info st env).state.sensorLastTrigger = some env.lastUpdate
        ∧ (update_callback name info st env).effects =
            Effect.updateTrigger env.lastUpdate :: Effect.fetchSnapshot ::
            Effect.sendEmail (send_mail_compose name info env.lastUpdate env.snapshot) ::
            (if env.emailSendFails then [] else [Effect.httpGet env.callbackUrl]))
    ∧ (env.lastUpdate - lt = 60 * 1000000 →
        emailAttempts (update_callback name info st env).effects = 0) := by
  rw [update_callback_some name info st env lt h hactive hurl]
  by_cases hf : total_seconds_gt (env.lastUpdate - lt) 60 = true
  · have hflt : 60 * 1000000 < env.lastUpdate - lt := by
      simpa [total_seconds_gt] using hf
    have h60 : ¬ env.lastUpdate - lt = 60000000 := by omega
    by_cases he : env.emailSendFails = true <;>
      simp [hf, he, h60, emailAttempts]
  · simp [hf, emailAttempts]

/-- Witness for C1: at `env0` (61 s after trigger time 0) the handler fires. -/
theorem fires_iff_elapsed_gt_60_witness :
    st0.sensorLastTrigger = some 0 ∧ env0.sensorState = true
    ∧ strTruthy env0.callbackUrl = true
    ∧ ((0 < emailAttempts (update_callback "cam motion 1" info0 st0 env0).effects ↔
          total_seconds_gt (env0.lastUpdate - 0) 60 = true)
       ∧ (total_seconds_gt (env0.lastUpdate - 0) 60 = true →
          (update_callback "cam motion 1" info0 st0 env0).state.sensorLastTrigger =
              some env0.lastUpdate
          ∧ (update_callback "cam motion 1" info0 st0 env0).effects =
              Effect.updateTrigger env0.lastUpdate :: Effect.fetchSnapshot ::
              Effect.sendEmail
                (send_mail_compose "cam motion 1" info0 env0.lastUpdate env0.snapshot) ::
              (if env0.emailSendFails then [] else [Effect.httpGet env0.callbackUrl]))
       ∧ (env0.lastUpdate - 0 = 60 * 1000000 →
          emailAttempts (update_callback "cam motion 1" info0 st0 env0).effects = 0)) :=
  ⟨rfl, rfl, rfl, fires_iff_elapsed_gt_60 "cam motion 1" info0 st0 env0 0 rfl rfl rfl⟩

/-- C5: an inactive event leaves the handler a complete no-op: state
unchanged, no effects of any kind, no exception — regardless of the prior
state. -/
theorem inactive_event_noop (name : String) (info : EmailInfo) (st : MonitorState)
    (env : Env) (h : env.sensorState = false) :
    update_callback name info st env = { state := st, effects := [], raised := false } := by
  simp [update_callback, h]

/-- Witness for C5 at a concrete inactive event. -/
theorem inactive_event_noop_witness :
    envOff.sensorState = false
    ∧ update_callback "cam motion 1" info0 st0 envOff =
        { state := st0, effects := [], raised := false } :=
  ⟨rfl, inactive_event_noop "cam motion 1" info0 st0 envOff rfl⟩

/-- C7: delivering the same event twice in immediate succession attempts at
most one email — on the second delivery the elapsed time is 0, which is
suppressed. -/
theorem duplicate_delivery_fires_at_most_once (name : String) (info : EmailInfo)
    (st : MonitorState) (env : Env) :
    emailAttempts (update_callback name info st env).effects
      + emailAttempts (update_callback name info
          (update_callback name info st env).state env).effects ≤ 1 := by
  have hzero : total_seconds_gt 0 60 = false := by decide
  by_cases hg : (env.sensorState && strTruthy env.callbackUrl) = true
  · obtain ⟨hactive, hurl⟩ := Bool.and_eq_true _ _ |>.mp hg
    obtain ⟨tr⟩ := st
    cases tr with
    | none =>
      simp only [update_callback, hg, if_true]
      simp [hzero, emailAttempts]
    | some lt =>
      rw [update_callback_some name info ⟨some lt⟩ env lt rfl hactive hurl]
      by_cases hf : total_seconds_gt (env.lastUpdate - lt) 60 = true
      · by_cases he : env.emailSendFails = true <;>
        · simp only [hf, he, if_true, if_false, Bool.false_eq_true]
          rw [update_callback_some name info ⟨some env.lastUpdate⟩ env env.lastUpdate
            rfl hactive hurl]
          simp [hzero, emailAttempts]
      · simp only [hf, Bool.false_eq_true, if_false]
        rw [update_callback_some name info ⟨some lt⟩ env lt rfl hactive hurl]
        simp [hf, emailAttempts]
  · simp [update_callback, hg, emailAttempts]

/-- C2 counterexample: starting from the constructor's state (construction
at 60000000 μs), the very first active observation — one microsecond after
construction — already sends an email: it fires instead of arming silently,
because `__init__` pre-sets the trigger to construction time minus 60 s. -/
theorem first_event_fires_counterexample :
    emailAttempts
        (update_callback "cam motion 1" info0 (initState 60000000) envFirst).effects
      = 1 := rfl

/-- C2 amended: the debounce record is always set at construction (to the
construction time minus 60 seconds), so the first active observation never
takes the silent arm branch; it fires precisely when its timestamp strictly
exceeds the construction time. -/
theorem first_event_fires_iff_after_construction (name : String) (info : EmailInfo)
    (t0 : Int) (env : Env)
    (hactive : env.sensorState = true) (hurl : strTruthy env.callbackUrl = true) :
    (0 < emailAttempts (update_callback name info (initState t0) env).effects ↔
        t0 < env.lastUpdate)
    ∧ armBranchTaken (initState t0) env = false := by
  have hinit : initState t0 = ⟨some (t0 - 60000000)⟩ := by
    show MonitorState.mk (some (t0 - 60 * 1000000)) = _
    norm_num
  rw [hinit]
  constructor
  · rw [update_callback_some name info ⟨some (t0 - 60000000)⟩ env
      (t0 - 60000000) rfl hactive hurl]
    by_cases hf : total_seconds_gt (env.lastUpdate - (t0 - 60000000)) 60 = true
    · have hf2 := hf
      simp only [total_seconds_gt, decide_eq_true_eq] at hf2
      have ht : t0 < env.lastUpdate := by omega
      by_cases he : env.emailSendFails = true <;> simp [hf, he, emailAttempts, ht]
    · have hf2 : total_seconds_gt (env.lastUpdate - (t0 - 60000000)) 60 = false :=
        Bool.not_eq_true _ |>.mp hf
      simp only [total_seconds_gt, decide_eq_false_iff_not] at hf2
      have ht : ¬ t0 < env.lastUpdate := by omega
      simp [hf, emailAttempts, ht]
  · simp [armBranchTaken]

/-- Witness for the amended C2 at a concrete first event after construction. -/
theorem first_event_fires_iff_after_construction_witness :
    envFirst.sensorState = true ∧ strTruthy envFirst.callbackUrl = true
    ∧ ((0 < emailAttempts
          (update_callback "cam motion 1" info0 (initState 60000000) envFirst).effects ↔
        (60000000 : Int) < envFirst.lastUpdate)
       ∧ armBranchTaken (initState 60000000) envFirst = false) :=
  ⟨rfl, rfl,
    first_event_fires_iff_after_construction "cam motion 1" info0 60000000 envFirst rfl rfl⟩

/-- C3 counterexample: a suppressed active event (30 s elapsed, record set)
sends no email yet still performs one outbound HTTP GET — the GET at line
146 is outside the fire branch. -/
theorem suppressed_event_still_gets_counterexample :
    emailAttempts (update_callback "cam motion 1" info0 st0 envSup).effects = 0
    ∧ httpGetAttempts (update_callback "cam motion 1" info0 st0 envSup).effects = 1 :=
  ⟨rfl, rfl⟩

/-- C3 amended: with the record set, an active event with a truthy callback
URL and a non-raising email path performs exactly one email attempt and
exactly one HTTP GET when it fires, and zero email attempts but still
exactly one HTTP GET when it is suppressed; no retries either way. -/
theorem dispatch_side_effect_counts (name : String) (info : EmailInfo)
    (st : MonitorState) (env : Env) (lt : Int)
    (h : st.sensorLastTrigger = some lt)
    (hactive : env.sensorState = true) (hurl : strTruthy env.callbackUrl = true)
    (hok : env.emailSendFails = false) :
    (total_seconds_gt (env.lastUpdate - lt) 60 = true →
        emailAttempts (update_callback name info st env).effects = 1
        ∧ httpGetAttempts (update_callback name info st env).effects = 1)
    ∧ (total_seconds_gt (env.lastUpdate - lt) 60 = false →
        emailAttempts (update_callback name info st env).effects = 0
        ∧ httpGetAttempts (update_callback name info st env).effects = 1) := by
  rw [update_callback_some name info st env lt h hactive hurl]
  by_cases hf : total_seconds_gt (env.lastUpdate - lt) 60 = true <;>
    simp [hf, hok, emailAttempts, httpGetAttempts]

/-- Witness for the amended C3 at a concrete fired event. -/
theorem dispatch_side_effect_counts_witness :
    st0.sensorLastTrigger = some 0 ∧ env0.sensorState = true
    ∧ strTruthy env0.callbackUrl = true ∧ env0.emailSendFails = false
    ∧ ((total_seconds_gt (env0.lastUpdate - 0) 60 = true →
          emailAttempts (update_callback "cam motion 1" info0 st0 env0).effects = 1
          ∧ httpGetAttempts (update_callback "cam motion 1" info0 st0 env0).effects = 1)
       ∧ (total_seconds_gt (env0.lastUpdate - 0) 60 = false →
          emailAttempts (update_callback "cam motion 1" info0 st0 env0).effects = 0
          ∧ httpGetAttempts (update_callback "cam motion 1" info0 st0 env0).effects = 1)) :=
  ⟨rfl, rfl, rfl, rfl,
    dispatch_side_effect_counts "cam motion 1" info0 st0 env0 0 rfl rfl rfl rfl⟩

/-- C4 counterexample: a failing callback GET raises out of the handler —
`requests.get` at line 146 is not wrapped in any exception handler, so the
failure is not swallowed. -/
theorem http_failure_raises_counterexample :
    (update_callback "cam motion 1" info0 st0 envSupFail).raised = true := rfl

/-- C4 amended: the outcome of the callback GET affects neither the monitor
state nor any effect — in particular the email attempt, which precedes the
GET, is unchanged, so the GET never affects whether the email was sent — but
a raising GET propagates its exception to the caller instead of being
swallowed; only the status code of a completed GET is merely logged. -/
theorem http_get_outcome_only_raises (name : String) (info : EmailInfo)
    (st : MonitorState) (env : Env) :
    (update_callback name info st { env with httpGetFails := true }).state
      = (update_callback name info st { env with httpGetFails := false }).state
    ∧ (update_callback name info st { env with httpGetFails := true }).effects
      = (update_callback name info st { env with httpGetFails := false }).effects := by
  obtain ⟨tr⟩ := st
  cases tr <;> simp only [update_callback] <;> split <;> (try split) <;> (try split) <;>
    simp

/-- One handler step never decreases a set debounce trigger: the only
mutation paths assign `currTime`, and the firing path requires
`currTime - lastTrigger > 60 s > 0`. -/
theorem update_callback_trigger_mono (name : String) (info : EmailInfo)
    (st : MonitorState) (env : Env) (lt : Int)
    (h : st.sensorLastTrigger = some lt) :
    ∃ lt', (update_callback name info st env).state.sensorLastTrigger = some lt'
      ∧ lt ≤ lt' := by
  by_cases hg : (env.sensorState && strTruthy env.callbackUrl) = true
  · obtain ⟨hactive, hurl⟩ := Bool.and_eq_true _ _ |>.mp hg
    rw [update_callback_some name info st env lt h hactive hurl]
    by_cases hf : total_seconds_gt (env.lastUpdate - lt) 60 = true
    · have hlt : (60 : Int) * 1000000 < env.lastUpdate - lt := by
        simpa [total_seconds_gt] using hf
      refine ⟨env.lastUpdate, ?_, by omega⟩
      by_cases he : env.emailSendFails = true <;> simp [hf, he]
    · exact ⟨lt, by simp [hf, h], le_refl lt⟩
  · exact ⟨lt, by simp [update_callback, hg, h], le_refl lt⟩

/-- Across any event sequence, a set trigger stays set and never decreases. -/
theorem runEvents_trigger_mono (name : String) (info : EmailInfo)
    (envs : List Env) :
    ∀ (st : MonitorState) (lt : Int), st.sensorLastTrigger = some lt →
      ∃ lt', (runEvents name info st envs).sensorLastTrigger = some lt'
        ∧ lt ≤ lt' := by
  induction envs with
  | nil => exact fun st lt h => ⟨lt, h, le_refl lt⟩
  | cons env rest ih =>
    intro st lt h
    obtain ⟨m, hm, hle⟩ := update_callback_trigger_mono name info st env lt h
    obtain ⟨lt', h1, h2⟩ := ih _ m hm
    exact ⟨lt', h1, le_trans hle h2⟩

/-- C6: the monitor owns a single debounce record, and its trigger time,
once set, is monotonically non-decreasing across every sequence of handler
invocations. -/
theorem trigger_monotone_nondecreasing (name : String) (info : EmailInfo)
    (envs : List Env) (st : MonitorState) (lt lt' : Int)
    (h : st.sensorLastTrigger = some lt)
    (h' : (runEvents name info st envs).sensorLastTrigger = some lt') :
    lt ≤ lt' := by
  obtain ⟨m, hm, hle⟩ := runEvents_trigger_mono name info envs st lt h
  rw [h'] at hm
  simp only [Option.some.injEq] at hm
  omega

/-- Witness for C6 across a concrete one-event sequence. -/
theorem trigger_monotone_nondecreasing_witness :
    st0.sensorLastTrigger = some 0
    ∧ (runEvents "cam motion 1" info0 st0 [env0]).sensorLastTrigger = some 61000000
    ∧ (0 : Int) ≤ 61000000 :=
  ⟨rfl, rfl,
    trigger_monotone_nondecreasing "cam motion 1" info0 [env0] st0 0 61000000 rfl rfl⟩

/-- C8: a fired event's email has subject exactly `Motion detected at `
followed by the sensor's composed name, a plaintext body naming the sensor
and the trigger time formatted `HH:MM:SS`, and one attachment named from the
trigger time formatted `HH-MM-SS` with a `.jpg` extension, whose content is
the snapshot the camera returns during this dispatch — fetched, in program
order, after the deciding event's trigger update and before the SMTP
attempt, never from a cache in the monitor (which stores no image). -/
theorem fired_email_contents (name : String) (info : EmailInfo)
    (st : MonitorState) (env : Env) (lt : Int)
    (h : st.sensorLastTrigger = some lt)
    (hactive : env.sensorState = true) (hurl : strTruthy env.callbackUrl = true)
    (hf : total_seconds_gt (env.lastUpdate - lt) 60 = true) :
    (update_callback name info st env).effects =
        Effect.updateTrigger env.lastUpdate :: Effect.fetchSnapshot ::
        Effect.sendEmail (send_mail_compose name info env.lastUpdate env.snapshot) ::
        (if env.emailSendFails then [] else [Effect.httpGet env.callbackUrl])
    ∧ (send_mail_compose name info env.lastUpdate env.snapshot).subject =
        "Motion detected at " ++ name
    ∧ (send_mail_compose name info env.lastUpdate env.snapshot).body =
        "Motion detected at " ++ name ++ " at " ++ strftimeHMS ":" env.lastUpdate ++ "."
    ∧ (send_mail_compose name info env.lastUpdate env.snapshot).attachmentName =
        strftimeHMS "-" env.lastUpdate ++ ".jpg"
    ∧ (send_mail_compose name info env.lastUpdate env.snapshot).attachmentContent =
        env.snapshot := by
  refine ⟨?_, rfl, rfl, rfl, rfl⟩
  rw [update_callback_some name info st env lt h hactive hurl]
  by_cases he : env.emailSendFails = true <;> simp [hf, he]

/-- Witness for C8 at a concrete fired event. -/
theorem fired_email_contents_witness :
    st0.sensorLastTrigger = some 0 ∧ env0.sensorState = true
    ∧ strTruthy env0.callbackUrl = true
    ∧ total_seconds_gt (env0.lastUpdate - 0) 60 = true
    ∧ ((update_callback "cam motion 1" info0 st0 env0).effects =
          Effect.updateTrigger env0.lastUpdate :: Effect.fetchSnapshot ::
          Effect.sendEmail
            (send_mail_compose "cam motion 1" info0 env0.lastUpdate env0.snapshot) ::
          (if env0.emailSendFails then [] else [Effect.httpGet env0.callbackUrl])
       ∧ (send_mail_compose "cam motion 1" info0 env0.lastUpdate env0.snapshot).subject =
          "Motion detected at " ++ "cam motion 1"
       ∧ (send_mail_compose "cam motion 1" info0 env0.lastUpdate env0.snapshot).body =
          "Motion detected at " ++ "cam motion 1" ++ " at "
            ++ strftimeHMS ":" env0.lastUpdate ++ "."
       ∧ (send_mail_compose "cam motion 1" info0 env0.lastUpdate env0.snapshot).attachmentName =
          strftimeHMS "-" env0.lastUpdate ++ ".jpg"
       ∧ (send_mail_compose "cam motion 1" info0 env0.lastUpdate env0.snapshot).attachmentContent =
          env0.snapshot) :=
  ⟨rfl, rfl, rfl, rfl,
    fired_email_contents "cam motion 1" info0 st0 env0 0 rfl rfl rfl rfl⟩

/-- C9: from any construction time and after any sequence of delivered
events, the stored trigger is still a set (truthy) value, so the
arm-without-firing branch at line 143, guarded by the falsity of the stored
trigger, can never execute on a reachable state. -/
theorem arm_branch_unreachable (name : String) (info : EmailInfo) (t0 : Int)
    (envs : List Env) (env : Env) :
    armBranchTaken (runEvents name info (initState t0) envs) env = false := by
  obtain ⟨m, hm, _⟩ := runEvents_trigger_mono name info envs (initState t0)
      (t0 - 60 * 1000000) rfl
  simp [armBranchTaken, hm]

/-- C10: when the 60-second check passes but the SMTP delivery raises, the
trigger has already been advanced to the event's timestamp, exactly one
email attempt took place, the exception escapes the handler, the callback
GET for this event is skipped, and any following event within 60 seconds of
the failed one is suppressed — the failed alert still consumes the debounce
window. -/
theorem email_failure_consumes_window (name : String) (info : EmailInfo)
    (st : MonitorState) (env env2 : Env) (lt : Int)
    (h : st.sensorLastTrigger = some lt)
    (hactive : env.sensorState = true) (hurl : strTruthy env.callbackUrl = true)
    (hf : total_seconds_gt (env.lastUpdate - lt) 60 = true)
    (hfail : env.emailSendFails = true)
    (hclose : total_seconds_gt (env2.lastUpdate - env.lastUpdate) 60 = false) :
    (update_callback name info st env).state.sensorLastTrigger = some env.lastUpdate
    ∧ emailAttempts (update_callback name info st env).effects = 1
    ∧ httpGetAttempts (update_callback name info st env).effects = 0
    ∧ (update_callback name info st env).raised = true
    ∧ emailAttempts (update_callback name info
        (update_callback name info st env).state env2).effects = 0 := by
  rw [update_callback_some name info st env lt h hactive hurl, if_pos hf, if_pos hfail]
  refine ⟨rfl, rfl, rfl, rfl, ?_⟩
  by_cases hg2 : (env2.sensorState && strTruthy env2.callbackUrl) = true
  · obtain ⟨ha2, hu2⟩ := Bool.and_eq_true _ _ |>.mp hg2
    rw [update_callback_some name info ⟨some env.lastUpdate⟩ env2 env.lastUpdate
      rfl ha2 hu2]
    simp [hclose, emailAttempts]
  · simp [update_callback, hg2, emailAttempts]

/-- Witness for C10: a fired-but-failing email at 61 s, followed by an event
30 s after trigger time 0 (well within 60 s of the failed one). -/
theorem email_failure_consumes_window_witness :
    st0.sensorLastTrigger = some 0 ∧ envMailFail.sensorState = true
    ∧ strTruthy envMailFail.callbackUrl = true
    ∧ total_seconds_gt (envMailFail.lastUpdate - 0) 60 = true
    ∧ envMailFail.emailSendFails = true
    ∧ total_seconds_gt (envSup.lastUpdate - envMailFail.lastUpdate) 60 = false
    ∧ ((update_callback "cam motion 1" info0 st0 envMailFail).state.sensorLastTrigger =
          some envMailFail.lastUpdate
       ∧ emailAttempts (update_callback "cam motion 1" info0 st0 envMailFail).effects = 1
       ∧ httpGetAttempts (update_callback "cam motion 1" info0 st0 envMailFail).effects = 0
       ∧ (update_callback "cam motion 1" info0 st0 envMailFail).raised = true
       ∧ emailAttempts (update_callback "cam motion 1" info0
            (update_callback "cam motion 1" info0 st0 envMailFail).state envSup).effects = 0) :=
  ⟨rfl, rfl, rfl, rfl, rfl, rfl,
    email_failure_consumes_window "cam motion 1" info0 st0 envMailFail envSup 0
      rfl rfl rfl rfl rfl rfl⟩

end Monitor
